import Mathlib

/-!
Shallow embedding of the Translator repository (src/App.tsx and
src/services/geminiService.ts): the streaming translation pipeline, the
swap handler, the bounded history store and the persistence gateway,
together with theorems settling the frozen claims about them.

Conventions of the embedding:
* The asynchronous generator `translateTextStream` is modelled as a pure
  function of its inputs plus the environment's behaviour (the list of
  chunks the remote service would deliver and whether it raises an error).
* The React component `handleTranslate` is modelled as a state transformer
  that also emits the ordered list of observable effects (status updates,
  output publications, toasts, the remote call, history appends) exactly in
  the order the code performs them.
* JavaScript's `String.prototype.trim` is a platform primitive, not code of
  the repository; it is modelled structurally (see `jsTrim`) so that it
  evaluates inside the kernel.
-/

namespace Translator

/-- Enumeration `TranslationDirection` from src/types (type alias
`'HI_TO_EN' | 'EN_TO_HI'`). -/
inductive TranslationDirection where
  | HI_TO_EN
  | EN_TO_HI
deriving DecidableEq, Repr

/-- Enum `TranslationStatus` from src/types. -/
inductive TranslationStatus where
  | IDLE
  | LOADING
  | STREAMING
  | SUCCESS
  | ERROR
deriving DecidableEq, Repr

/-- Interface `TranslationHistoryItem` from src/types. -/
structure TranslationHistoryItem where
  id : String
  original : String
  translated : String
  timestamp : Nat
  direction : TranslationDirection
deriving DecidableEq, Repr

/-- Interface `Script` from src/types (`content` is opaque markup). -/
structure Script where
  id : String
  title : String
  content : String
  lastModified : Nat
deriving DecidableEq, Repr

/-- Modelled from the spec: JavaScript's `String.prototype.trim` (a
platform primitive, not code of this repository). It strips leading and
trailing whitespace characters; the ASCII whitespace characters suffice for
the properties proved here. Defined structurally on the character list so
the kernel can evaluate it. -/
def isJsWhitespace (c : Char) : Bool :=
  c == ' ' || c == '\t' || c == '\n' || c == '\r' || c == '\x0b' || c == '\x0c'

/-- Modelled from the spec: the result of `text.trim()` in JavaScript. -/
def jsTrim (s : String) : String :=
  String.mk (((s.data.dropWhile isJsWhitespace).reverse.dropWhile isJsWhitespace).reverse)

/-- System instruction profile for the HI_TO_EN direction
(src/services/geminiService.ts, constant `SYSTEM_INSTRUCTION_HI_TO_EN`). -/
def SYSTEM_INSTRUCTION_HI_TO_EN : String :=
  "\nYou are a world-class script localization expert and linguist. Your task is to translate Hindi/Hinglish video scripts into United States English.\n\nCRITICAL INSTRUCTIONS FOR LONG-FORM SCRIPTS:\n1. **NO SUMMARIZATION**: You must translate every single sentence. Do not shorten, summarize, or skip any part of the text. The output length must correspond to the input.\n2. **STORYTELLING FLOW**: This is for a video script. The English output must flow naturally for a voice-over artist. Maintain the narrative arc, suspense, energy, and emotional beats of the original speaker.\n3. **PUNCTUATION MASTERY**: Pay extreme attention to punctuation. Use commas, periods, em-dashes, and ellipses correctly to indicate the pauses, breathing room, and emphasis required for natural US speech.\n4. **CONSISTENCY**: Ensure terminology and tone remain consistent from the first sentence to the last.\n5. **CULTURAL TRANSLATION**: Convert Indian idioms to their closest natural US equivalents.\n   - If the input is casual/slang (e.g., 'Kya bolti public', 'Bhai'), use American slang (e.g., 'What's up everyone', 'Bro/Dude').\n   - If the input is formal, keep it professional.\n\nYour goal is a flawless, ready-to-record US English script.\n"

/-- System instruction profile for the EN_TO_HI direction
(src/services/geminiService.ts, constant `SYSTEM_INSTRUCTION_EN_TO_HI`). -/
def SYSTEM_INSTRUCTION_EN_TO_HI : String :=
  "\nYou are a world-class script localization expert. Your task is to translate United States English video scripts into natural, conversational Hindi/Hinglish (India).\n\nCRITICAL INSTRUCTIONS FOR LONG-FORM SCRIPTS:\n1. **NO SUMMARIZATION**: Translate the entire script. Do not skip or condense any information.\n2. **DESI STORYTELLING**: The output should sound like a native Indian storyteller or YouTuber. Use a mix of Hindi and English (Hinglish) that feels authentic to daily conversation and social media content.\n3. **EMOTIONAL RESONANCE**: Capture the excitement, humor, or seriousness of the original US script.\n4. **NATURAL FLOW**: The text should be easy to read aloud. Avoid overly bookish or \"Shuddh\" Hindi unless the context demands it. Use popular Hinglish terms where appropriate.\n5. **PUNCTUATION**: Maintain correct punctuation to guide the flow of reading.\n\nYour goal is a script that connects instantly with an Indian audience.\n"

/-- One chunk of the remote service's streamed response; `chunk.text` may be
absent (`none`) or any string, including the empty one. -/
structure Chunk where
  text : Option String
deriving DecidableEq, Repr

/-- Truthiness test `if (chunk.text)` of src/services/geminiService.ts line
54: the chunk's text when it is present and non-empty, otherwise `none`. -/
def chunkText (c : Chunk) : Option String :=
  match c.text with
  | some t => if t = "" then none else some t
  | none => none

/-- Observable outcome of one run of the generator `translateTextStream`:
the fragments it yields in order, the error it throws (if any), whether it
issued the remote call, and the system instruction it passed to the remote
service (if it got that far). -/
structure StreamRun where
  fragments : List String
  error : Option String
  madeNetworkCall : Bool
  instructionUsed : Option String
deriving DecidableEq, Repr

/-- Embedding of `translateTextStream` (src/services/geminiService.ts).
The environment supplies the chunks the remote call would deliver before
the stream ends and whether the stream then ends with an error. The
generator returns immediately on blank input (`!text || text.trim() ===
""`), otherwise selects the instruction profile from `direction`, issues
the remote call, yields `chunk.text` for every truthy chunk text in order,
and on an underlying error throws `Connection interrupted. Please try
again.` after the fragments already yielded. -/
def translateTextStream (text : String) (direction : TranslationDirection)
    (chunks : List Chunk) (raisesError : Bool) : StreamRun :=
  if text = "" ∨ jsTrim text = "" then
    { fragments := [], error := none, madeNetworkCall := false, instructionUsed := none }
  else
    let systemInstruction :=
      if direction = TranslationDirection.HI_TO_EN then SYSTEM_INSTRUCTION_HI_TO_EN
      else SYSTEM_INSTRUCTION_EN_TO_HI
    { fragments := chunks.filterMap chunkText,
      error := if raisesError then some "Connection interrupted. Please try again." else none,
      madeNetworkCall := true,
      instructionUsed := some systemInstruction }

/-- Translator-panel state of the `App` component (src/App.tsx): the React
state cells the translation pipeline touches. -/
structure AppState where
  inputText : String
  outputText : String
  direction : TranslationDirection
  status : TranslationStatus
  history : List TranslationHistoryItem
deriving DecidableEq, Repr

/-- One observable effect of a run of `handleTranslate`, in program order:
a `setStatus` call, a `setOutputText` call (the published partial/final
result), an `addToast` call, the remote call to the translation service, or
the construction-and-append of a history record. -/
inductive Event where
  | setStatus (st : TranslationStatus)
  | setOutputText (text : String)
  | addToast (msg : String)
  | remoteCall
  | appendHistory (item : TranslationHistoryItem)
deriving DecidableEq, Repr

/-- Accumulation loop of src/App.tsx lines 322-325: starting from the
accumulated text `acc`, each fragment extends the accumulator and publishes
it via `setOutputText`. -/
def publishLoop (acc : String) : List String → List Event
  | [] => []
  | f :: rest => Event.setOutputText (acc ++ f) :: publishLoop (acc ++ f) rest

/-- Final accumulated text of the loop: the in-order concatenation of the
fragments appended to `accumulatedText`. -/
def concatFragments : List String → String
  | [] => ""
  | f :: rest => f ++ concatFragments rest

/-- History update of src/App.tsx line 332:
`setHistory((prev) => [newItem, ...prev].slice(0, 50))`. -/
def appendHistoryItem (newItem : TranslationHistoryItem)
    (prev : List TranslationHistoryItem) : List TranslationHistoryItem :=
  (newItem :: prev).take 50

/-- Embedding of `handleTranslate` (src/App.tsx lines 313-338). Inputs
beyond the component state: the environment's stream behaviour (`chunks`,
`raisesError`), the fresh id `generateId()` would produce and the clock
value `Date.now()` would return. Returns the final component state and the
ordered effects. Blank input (`!inputText.trim()`) toasts a validation
error and returns with the state unchanged. Otherwise the code sets
LOADING, clears the output, creates the stream, sets STREAMING (before the
generator body — and hence the remote call — runs), consumes the fragments
while publishing each accumulation step, and finally either sets SUCCESS
and appends the history record built from the input text and the
accumulated text, or on a thrown error sets ERROR and toasts. -/
def handleTranslate (s : AppState) (chunks : List Chunk) (raisesError : Bool)
    (newId : String) (now : Nat) : AppState × List Event :=
  if jsTrim s.inputText = "" then
    (s, [Event.addToast "Please enter text"])
  else
    let run := translateTextStream s.inputText s.direction chunks raisesError
    let accumulatedText := concatFragments run.fragments
    let startEvents :=
      [Event.setStatus TranslationStatus.LOADING, Event.setOutputText "",
       Event.setStatus TranslationStatus.STREAMING] ++
      (if run.madeNetworkCall then [Event.remoteCall] else []) ++
      publishLoop "" run.fragments
    match run.error with
    | some _ =>
      ({ s with outputText := accumulatedText, status := TranslationStatus.ERROR },
       startEvents ++ [Event.setStatus TranslationStatus.ERROR,
                       Event.addToast "Translation failed"])
    | none =>
      let newItem : TranslationHistoryItem :=
        { id := newId, original := s.inputText, translated := accumulatedText,
          timestamp := now, direction := s.direction }
      ({ s with outputText := accumulatedText, status := TranslationStatus.SUCCESS,
                history := appendHistoryItem newItem s.history },
       startEvents ++ [Event.setStatus TranslationStatus.SUCCESS,
                       Event.appendHistory newItem])

/-- Direction toggle of src/App.tsx line 341. -/
def toggleDirection : TranslationDirection → TranslationDirection
  | TranslationDirection.HI_TO_EN => TranslationDirection.EN_TO_HI
  | TranslationDirection.EN_TO_HI => TranslationDirection.HI_TO_EN

/-- Embedding of `handleSwap` (src/App.tsx lines 340-345): toggles the
direction, exchanges input and output text, and resets the status from the
pre-swap texts. -/
def handleSwap (s : AppState) : AppState :=
  { s with
    direction := toggleDirection s.direction,
    inputText := s.outputText,
    outputText := s.inputText,
    status :=
      if s.outputText = "" ∧ s.inputText = "" then TranslationStatus.IDLE
      else TranslationStatus.SUCCESS }

/-- Serialized blob the persistence gateway stores under its single key
(src/services/storage.ts): `scripts` and `history`. -/
structure StoredData where
  scripts : List Script
  history : List TranslationHistoryItem
deriving DecidableEq, Repr

/-- Argument shape of `storageService.saveData`: either field may be
absent. -/
structure PartialData where
  scripts : Option (List Script)
  history : Option (List TranslationHistoryItem)
deriving DecidableEq, Repr

/-- Embedding of `storageService.getData` (src/services/storage.ts):
parses the stored blob, defaulting to empty collections when nothing was
stored. -/
def getData (store : Option StoredData) : StoredData :=
  store.getD { scripts := [], history := [] }

/-- Embedding of `storageService.saveData` (src/services/storage.ts):
spread-merges the given fields over the current data and stores the
result. -/
def saveData (store : Option StoredData) (data : PartialData) : Option StoredData :=
  let currentData := getData store
  some { scripts := data.scripts.getD currentData.scripts,
         history := data.history.getD currentData.history }

/-- Recognizer for history-append effects. -/
def Event.isAppendHistory : Event → Bool
  | Event.appendHistory _ => true
  | _ => false

/-- One step of scanning for the last published output: a `setOutputText`
effect replaces the value seen so far. -/
def publishFold (acc : Option String) (e : Event) : Option String :=
  match e with
  | Event.setOutputText t => some t
  | _ => acc

/-- Last value passed to `setOutputText` during a run, i.e. the last
published (partial or final) result. -/
def lastPublishedOutput (events : List Event) : Option String :=
  events.foldl publishFold none

/-- Checker for the ordering demanded by claim C7: scanning the effects in
program order, the STREAMING status must not be entered before some
fragment (a non-empty published output) has arrived. -/
def streamingOnlyAfterFragment : List Event → Bool
  | [] => true
  | Event.setOutputText t :: rest =>
      if t = "" then streamingOnlyAfterFragment rest else true
  | Event.setStatus TranslationStatus.STREAMING :: _ => false
  | _ :: rest => streamingOnlyAfterFragment rest

/-! Helper lemmas shared by the claim theorems. -/

/-- Trimming the empty string yields the empty string. -/
lemma jsTrim_empty : jsTrim "" = "" := by decide

/-- Characterization of `translateTextStream` on non-blank input: it issues
the remote call, uses the direction's fixed instruction profile, yields the
truthy chunk texts in order, and errors exactly when the underlying stream
does. -/
lemma translateTextStream_nonblank (text : String) (direction : TranslationDirection)
    (chunks : List Chunk) (raisesError : Bool) (hnb : jsTrim text ≠ "") :
    translateTextStream text direction chunks raisesError =
      { fragments := chunks.filterMap chunkText,
        error := if raisesError then some "Connection interrupted. Please try again." else none,
        madeNetworkCall := true,
        instructionUsed := some (if direction = TranslationDirection.HI_TO_EN
          then SYSTEM_INSTRUCTION_HI_TO_EN else SYSTEM_INSTRUCTION_EN_TO_HI) } := by
  have hne : ¬(text = "" ∨ jsTrim text = "") := by
    rintro (h | h)
    · exact hnb (by rw [h]; exact jsTrim_empty)
    · exact hnb h
  unfold translateTextStream
  rw [if_neg hne]

/-- Characterization of `handleTranslate` on non-blank input when the
stream completes without error. -/
lemma handleTranslate_success (s : AppState) (chunks : List Chunk)
    (newId : String) (now : Nat) (hnb : jsTrim s.inputText ≠ "") :
    handleTranslate s chunks false newId now =
      ({ s with outputText := concatFragments (chunks.filterMap chunkText),
                status := TranslationStatus.SUCCESS,
                history := appendHistoryItem
                  { id := newId, original := s.inputText,
                    translated := concatFragments (chunks.filterMap chunkText),
                    timestamp := now, direction := s.direction } s.history },
       Event.setStatus TranslationStatus.LOADING :: Event.setOutputText "" ::
       Event.setStatus TranslationStatus.STREAMING :: Event.remoteCall ::
       (publishLoop "" (chunks.filterMap chunkText) ++
        [Event.setStatus TranslationStatus.SUCCESS,
         Event.appendHistory
           { id := newId, original := s.inputText,
             translated := concatFragments (chunks.filterMap chunkText),
             timestamp := now, direction := s.direction }])) := by
  unfold handleTranslate
  rw [if_neg hnb, translateTextStream_nonblank s.inputText s.direction chunks false hnb]
  rfl

/-- Characterization of `handleTranslate` on non-blank input when the
stream ends with an error. -/
lemma handleTranslate_error (s : AppState) (chunks : List Chunk)
    (newId : String) (now : Nat) (hnb : jsTrim s.inputText ≠ "") :
    handleTranslate s chunks true newId now =
      ({ s with outputText := concatFragments (chunks.filterMap chunkText),
                status := TranslationStatus.ERROR },
       Event.setStatus TranslationStatus.LOADING :: Event.setOutputText "" ::
       Event.setStatus TranslationStatus.STREAMING :: Event.remoteCall ::
       (publishLoop "" (chunks.filterMap chunkText) ++
        [Event.setStatus TranslationStatus.ERROR,
         Event.addToast "Translation failed"])) := by
  unfold handleTranslate
  rw [if_neg hnb, translateTextStream_nonblank s.inputText s.direction chunks true hnb]
  rfl

/-- The accumulation loop publishes only output text: it appends no history
record. -/
lemma publishLoop_filter_isAppendHistory (l : List String) :
    ∀ acc, (publishLoop acc l).filter Event.isAppendHistory = [] := by
  induction l with
  | nil => intro acc; rfl
  | cons f rest ih =>
      intro acc
      simp [publishLoop, List.filter_cons, Event.isAppendHistory, ih (acc ++ f)]

/-- Folding the publish scanner over the accumulation loop started at `acc`
ends at the full accumulated text. -/
lemma foldl_publishFold_publishLoop (l : List String) :
    ∀ acc, List.foldl publishFold (some acc) (publishLoop acc l) =
      some (acc ++ concatFragments l) := by
  induction l with
  | nil => intro acc; simp [publishLoop, concatFragments]
  | cons f rest ih =>
      intro acc
      simp only [publishLoop, List.foldl_cons, publishFold, concatFragments]
      rw [ih (acc ++ f), String.append_assoc]

end Translator

namespace Translator

/-- C1: for non-blank input, when the stream yields at least one fragment
and ends without error, the pipeline ends SUCCESS, the final published
result is the in-order concatenation of the fragments, and exactly one
history record built from the request text and the accumulated text is
appended to the history store. -/
theorem translate_success_publishes_and_records
    (s : AppState) (chunks : List Chunk) (newId : String) (now : Nat)
    (hnb : jsTrim s.inputText ≠ "")
    (hfrag : (translateTextStream s.inputText s.direction chunks false).fragments ≠ []) :
    (handleTranslate s chunks false newId now).1.status = TranslationStatus.SUCCESS ∧
    (handleTranslate s chunks false newId now).1.outputText =
      concatFragments (translateTextStream s.inputText s.direction chunks false).fragments ∧
    (handleTranslate s chunks false newId now).1.history =
      appendHistoryItem
        { id := newId, original := s.inputText,
          translated :=
            concatFragments (translateTextStream s.inputText s.direction chunks false).fragments,
          timestamp := now, direction := s.direction } s.history ∧
    (handleTranslate s chunks false newId now).2.filter Event.isAppendHistory =
      [Event.appendHistory
        { id := newId, original := s.inputText,
          translated :=
            concatFragments (translateTextStream s.inputText s.direction chunks false).fragments,
          timestamp := now, direction := s.direction }] := by
  rw [handleTranslate_success s chunks newId now hnb,
      translateTextStream_nonblank s.inputText s.direction chunks false hnb]
  refine ⟨rfl, rfl, rfl, ?_⟩
  simp [List.filter_cons, List.filter_append, Event.isAppendHistory,
        publishLoop_filter_isAppendHistory]

end Translator

namespace Translator

/-- C2: if the stream raises an error after yielding some prefix of
fragments, the final state is ERROR, the last published partial result is
the concatenation of the fragments yielded before the failure (both in the
retained output text and as the last `setOutputText` effect), and no
history record is appended. -/
theorem translate_error_keeps_partial_no_record
    (s : AppState) (chunks : List Chunk) (newId : String) (now : Nat)
    (hnb : jsTrim s.inputText ≠ "") :
    (handleTranslate s chunks true newId now).1.status = TranslationStatus.ERROR ∧
    (handleTranslate s chunks true newId now).1.outputText =
      concatFragments (translateTextStream s.inputText s.direction chunks true).fragments ∧
    lastPublishedOutput (handleTranslate s chunks true newId now).2 =
      some (concatFragments (translateTextStream s.inputText s.direction chunks true).fragments) ∧
    (handleTranslate s chunks true newId now).1.history = s.history ∧
    (handleTranslate s chunks true newId now).2.filter Event.isAppendHistory = [] := by
  rw [handleTranslate_error s chunks newId now hnb,
      translateTextStream_nonblank s.inputText s.direction chunks true hnb]
  refine ⟨rfl, rfl, ?_, rfl, ?_⟩
  · simp only [lastPublishedOutput, List.foldl_cons, publishFold, List.foldl_append,
      foldl_publishFold_publishLoop]
    simp [publishFold, String.empty_append]
  · simp [List.filter_cons, List.filter_append, Event.isAppendHistory,
          publishLoop_filter_isAppendHistory]

/-- C3: the history store's append inserts at the head and caps the list at
50 entries: for a store currently within the cap, the result stays within
the cap, keeps the new item first, is a plain head insertion while fewer
than 50 entries exist, and at exactly 50 entries evicts exactly the oldest
(last) entry so that exactly 50 remain. -/
theorem history_append_capped (item : TranslationHistoryItem)
    (prev : List TranslationHistoryItem) (hlen : prev.length ≤ 50) :
    (appendHistoryItem item prev).length ≤ 50 ∧
    (appendHistoryItem item prev).head? = some item ∧
    (prev.length < 50 → appendHistoryItem item prev = item :: prev) ∧
    (prev.length = 50 →
      appendHistoryItem item prev = item :: prev.dropLast ∧
      (appendHistoryItem item prev).length = 50) := by
  refine ⟨List.length_take_le 50 _, ?_, ?_, ?_⟩
  · rfl
  · intro hlt
    exact List.take_of_length_le (by simp [List.length_cons]; omega)
  · intro h50
    constructor
    · show (item :: prev).take 50 = item :: prev.dropLast
      rw [show (50 : Nat) = 49 + 1 from rfl, List.take_succ_cons,
          List.dropLast_eq_take, h50]
    · simp [appendHistoryItem, List.length_take, h50]

end Translator

namespace Translator

/-- C4: blank or whitespace-only input is rejected before anything happens:
the component state is unchanged (so a pipeline in IDLE stays in IDLE), no
remote call is issued, and a user-visible validation toast is signaled. -/
theorem blank_input_rejected_state_unchanged
    (s : AppState) (chunks : List Chunk) (raisesError : Bool)
    (newId : String) (now : Nat) (hblank : jsTrim s.inputText = "") :
    (handleTranslate s chunks raisesError newId now).1 = s ∧
    Event.remoteCall ∉ (handleTranslate s chunks raisesError newId now).2 ∧
    Event.addToast "Please enter text" ∈ (handleTranslate s chunks raisesError newId now).2 ∧
    (s.status = TranslationStatus.IDLE →
      (handleTranslate s chunks raisesError newId now).1.status = TranslationStatus.IDLE) := by
  have h : handleTranslate s chunks raisesError newId now =
      (s, [Event.addToast "Please enter text"]) := by
    unfold handleTranslate
    rw [if_pos hblank]
  rw [h]
  exact ⟨rfl, by simp, by simp, fun hs => hs⟩

/-- C5: for empty or all-whitespace text, the generator returns before any
network interaction: zero fragments, no error, no remote call, no
instruction profile selected. -/
theorem blank_text_stream_immediately_empty
    (text : String) (direction : TranslationDirection)
    (chunks : List Chunk) (raisesError : Bool) (hblank : jsTrim text = "") :
    translateTextStream text direction chunks raisesError =
      { fragments := [], error := none, madeNetworkCall := false,
        instructionUsed := none } := by
  unfold translateTextStream
  rw [if_pos (Or.inr hblank)]

/-- C6: saving only the `scripts` field merges over the stored blob:
loading afterwards returns exactly the saved script list and a `history`
field identical to its prior value. -/
theorem save_scripts_load_roundtrip (store : Option StoredData) (s : Script) :
    getData (saveData store { scripts := some [s], history := none }) =
      { scripts := [s], history := (getData store).history } := rfl

end Translator

namespace Translator

/-- C7, counterexample: in a concrete non-blank run the STREAMING status is
entered although no fragment has been published yet, refuting the claim
that the consumer stays in REQUESTING (LOADING) until the first fragment
arrives. -/
theorem streaming_before_first_fragment_cex :
    streamingOnlyAfterFragment
      (handleTranslate
        { inputText := "hello", outputText := "",
          direction := TranslationDirection.HI_TO_EN,
          status := TranslationStatus.IDLE, history := [] }
        [{ text := some "world" }] false "id1" 0).2 = false := by decide

/-- C7, amended: for every non-blank run, the consumer transitions to
STREAMING immediately after creating the stream — before the remote call is
made and before any fragment is published; it does not wait in the LOADING
(REQUESTING) state for the first fragment. -/
theorem streaming_entered_before_any_fragment
    (s : AppState) (chunks : List Chunk) (raisesError : Bool)
    (newId : String) (now : Nat) (hnb : jsTrim s.inputText ≠ "") :
    ∃ rest, (handleTranslate s chunks raisesError newId now).2 =
      Event.setStatus TranslationStatus.LOADING :: Event.setOutputText "" ::
      Event.setStatus TranslationStatus.STREAMING :: Event.remoteCall :: rest := by
  cases raisesError
  · rw [handleTranslate_success s chunks newId now hnb]
    exact ⟨_, rfl⟩
  · rw [handleTranslate_error s chunks newId now hnb]
    exact ⟨_, rfl⟩

/-- C8: for identical non-blank input text, the two directions pass
distinct fixed instruction profiles to the remote service, each direction
always selecting the same fixed profile. -/
theorem directions_select_distinct_profiles
    (text : String) (chunks : List Chunk) (raisesError : Bool)
    (hnb : jsTrim text ≠ "") :
    (translateTextStream text TranslationDirection.HI_TO_EN chunks raisesError).instructionUsed
      = some SYSTEM_INSTRUCTION_HI_TO_EN ∧
    (translateTextStream text TranslationDirection.EN_TO_HI chunks raisesError).instructionUsed
      = some SYSTEM_INSTRUCTION_EN_TO_HI ∧
    SYSTEM_INSTRUCTION_HI_TO_EN ≠ SYSTEM_INSTRUCTION_EN_TO_HI := by
  refine ⟨?_, ?_, by decide⟩
  · rw [translateTextStream_nonblank text TranslationDirection.HI_TO_EN chunks raisesError hnb]
    rfl
  · rw [translateTextStream_nonblank text TranslationDirection.EN_TO_HI chunks raisesError hnb]
    rfl

/-- C9: swapping twice restores the input text, the output text and the
direction: the direction toggle is an involution and the text exchange
composed with itself is the identity. -/
theorem swap_twice_restores_panel (s : AppState) :
    (handleSwap (handleSwap s)).inputText = s.inputText ∧
    (handleSwap (handleSwap s)).outputText = s.outputText ∧
    (handleSwap (handleSwap s)).direction = s.direction := by
  obtain ⟨i, o, d, st, h⟩ := s
  cases d <;> exact ⟨rfl, rfl, rfl⟩

/-- C10: every fragment the generator yields is a non-empty string: chunks
whose text is absent or empty are filtered out. -/
theorem stream_fragments_nonempty
    (text : String) (direction : TranslationDirection) (chunks : List Chunk)
    (raisesError : Bool) (f : String)
    (hf : f ∈ (translateTextStream text direction chunks raisesError).fragments) :
    f ≠ "" := by
  unfold translateTextStream at hf
  by_cases hb : text = "" ∨ jsTrim text = ""
  · rw [if_pos hb] at hf
    simp at hf
  · rw [if_neg hb] at hf
    simp only [List.mem_filterMap] at hf
    obtain ⟨c, -, hc⟩ := hf
    unfold chunkText at hc
    rcases c with ⟨t⟩
    cases t with
    | none => exact absurd hc (by simp)
    | some t =>
        simp only at hc
        split at hc
        · exact absurd hc (by simp)
        · next ht =>
            injection hc with h
            subst h
            exact ht

end Translator

namespace Translator

/-- Witness for C1 at a concrete run: input `hello`, two fragments. -/
theorem translate_success_publishes_and_records_witness :
    jsTrim "hello" ≠ "" ∧
    (translateTextStream "hello" TranslationDirection.HI_TO_EN
      [{ text := some "Hi " }, { text := some "there" }] false).fragments ≠ [] ∧
    (handleTranslate
      { inputText := "hello", outputText := "",
        direction := TranslationDirection.HI_TO_EN,
        status := TranslationStatus.IDLE, history := [] }
      [{ text := some "Hi " }, { text := some "there" }] false "h1" 7).1.status =
        TranslationStatus.SUCCESS ∧
    (handleTranslate
      { inputText := "hello", outputText := "",
        direction := TranslationDirection.HI_TO_EN,
        status := TranslationStatus.IDLE, history := [] }
      [{ text := some "Hi " }, { text := some "there" }] false "h1" 7).1.outputText =
        "Hi there" :=
  ⟨by decide, by decide,
   (translate_success_publishes_and_records _ _ _ _ (by decide) (by decide)).1,
   by decide⟩

/-- Witness for C2 at a concrete run: error after fragments `f1`, `f2`. -/
theorem translate_error_keeps_partial_no_record_witness :
    jsTrim "hello" ≠ "" ∧
    (handleTranslate
      { inputText := "hello", outputText := "",
        direction := TranslationDirection.HI_TO_EN,
        status := TranslationStatus.IDLE, history := [] }
      [{ text := some "f1" }, { text := some "f2" }] true "e1" 3).1.status =
        TranslationStatus.ERROR ∧
    (handleTranslate
      { inputText := "hello", outputText := "",
        direction := TranslationDirection.HI_TO_EN,
        status := TranslationStatus.IDLE, history := [] }
      [{ text := some "f1" }, { text := some "f2" }] true "e1" 3).1.outputText = "f1f2" ∧
    (handleTranslate
      { inputText := "hello", outputText := "",
        direction := TranslationDirection.HI_TO_EN,
        status := TranslationStatus.IDLE, history := [] }
      [{ text := some "f1" }, { text := some "f2" }] true "e1" 3).1.history = [] :=
  ⟨by decide, (translate_error_keeps_partial_no_record _ _ _ _ (by decide)).1,
   by decide, by decide⟩

/-- Witness for C3 at a concrete store within the cap. -/
theorem history_append_capped_witness :
    ([] : List TranslationHistoryItem).length ≤ 50 ∧
    (appendHistoryItem
      { id := "a", original := "b", translated := "c", timestamp := 0,
        direction := TranslationDirection.HI_TO_EN } []).head? =
      some { id := "a", original := "b", translated := "c", timestamp := 0,
             direction := TranslationDirection.HI_TO_EN } :=
  ⟨by decide, (history_append_capped _ [] (by decide)).2.1⟩

/-- Witness for C4 at a concrete whitespace-only input. -/
theorem blank_input_rejected_state_unchanged_witness :
    jsTrim "   " = "" ∧
    (handleTranslate
      { inputText := "   ", outputText := "prior",
        direction := TranslationDirection.EN_TO_HI,
        status := TranslationStatus.IDLE, history := [] } [] false "i1" 0).1 =
      { inputText := "   ", outputText := "prior",
        direction := TranslationDirection.EN_TO_HI,
        status := TranslationStatus.IDLE, history := [] } :=
  ⟨by decide, (blank_input_rejected_state_unchanged _ _ _ _ _ (by decide)).1⟩

/-- Witness for C5 at a concrete whitespace-only text. -/
theorem blank_text_stream_immediately_empty_witness :
    jsTrim " \n " = "" ∧
    translateTextStream " \n " TranslationDirection.HI_TO_EN
      [{ text := some "x" }] true =
      { fragments := [], error := none, madeNetworkCall := false,
        instructionUsed := none } :=
  ⟨by decide, blank_text_stream_immediately_empty _ _ _ _ (by decide)⟩

/-- Witness for the amended C7 at a concrete non-blank run. -/
theorem streaming_entered_before_any_fragment_witness :
    jsTrim "hello" ≠ "" ∧
    ∃ rest, (handleTranslate
      { inputText := "hello", outputText := "",
        direction := TranslationDirection.HI_TO_EN,
        status := TranslationStatus.IDLE, history := [] } [] false "i2" 0).2 =
      Event.setStatus TranslationStatus.LOADING :: Event.setOutputText "" ::
      Event.setStatus TranslationStatus.STREAMING :: Event.remoteCall :: rest :=
  ⟨by decide, streaming_entered_before_any_fragment _ _ _ _ _ (by decide)⟩

/-- Witness for C8 at a concrete non-blank text. -/
theorem directions_select_distinct_profiles_witness :
    jsTrim "x" ≠ "" ∧
    SYSTEM_INSTRUCTION_HI_TO_EN ≠ SYSTEM_INSTRUCTION_EN_TO_HI :=
  ⟨by decide, (directions_select_distinct_profiles "x" [] false (by decide)).2.2⟩

/-- Witness for C10 at a concrete yielded fragment. -/
theorem stream_fragments_nonempty_witness :
    "hi" ∈ (translateTextStream "hello" TranslationDirection.HI_TO_EN
      [{ text := some "hi" }] false).fragments ∧
    "hi" ≠ "" :=
  ⟨by decide,
   stream_fragments_nonempty "hello" TranslationDirection.HI_TO_EN
     [{ text := some "hi" }] false "hi" (by decide)⟩

end Translator
